import Mathlib

/-
  Verification development for the city-traffic simulation pipeline
  (full_pipeline_cached.py together with the grid generator it consumes).

  The embedding models Python floats as exact rationals (ℚ): every numeric
  literal of the source (0.2, 0.5, 0.05, 1.5, …) is an exact rational, which
  is also how the specification computes with them (e.g. 0.5 × (1 + 3×0.05)
  = 0.575 "exactly").  Randomness is modelled by passing each random draw
  (an integer draw, a choice index) as an explicit argument.
-/

/-- Attribute record of a networkx node.  Each field mirrors one key of the
node-attribute dict; a `none` means the key is absent, matching the
`.get(key, default)` accesses of the source. -/
structure NodeData where
  zone : Option String
  traffic_light : Option Bool
  traffic_light_delay : Option ℚ
deriving DecidableEq, Repr

/-- Attribute dict of a networkx edge.  `capacity` and `delay` are the keys
the pipeline reads; `hasOtherAttrs` records whether the dict holds any other
key (the generator always stores weight, distance and road_type), which
matters because the source tests the dict for truthiness (`if edge_data:`). -/
structure EdgeData where
  capacity : Option ℤ
  delay : Option ℚ
  hasOtherAttrs : Bool
deriving DecidableEq, Repr

/-- A Python attribute dict is falsy exactly when it holds no key at all. -/
def EdgeData.isEmptyDict (d : EdgeData) : Bool :=
  d.capacity.isNone && d.delay.isNone && !d.hasOtherAttrs

/-- The road network: association lists mirroring `G.nodes(data=True)` and
`G.edges(data=True)` of the directed networkx graph. -/
structure Graph where
  nodes : List (String × NodeData)
  edges : List ((String × String) × EdgeData)

/-- `G.nodes[u]` lookup; `none` models the KeyError raised on a missing node. -/
def Graph.nodeData? (G : Graph) (u : String) : Option NodeData :=
  G.nodes.lookup u

/-- `G.get_edge_data(u, v, default={})`: `none` models the empty default dict
returned when (u, v) is not an edge. -/
def Graph.edgeData? (G : Graph) (u v : String) : Option EdgeData :=
  G.edges.lookup (u, v)

/-- Whether (u, v) is an edge whose attribute dict is truthy, i.e. the
condition under which the `if edge_data:` block of the source runs. -/
def isRealRoad (G : Graph) (u v : String) : Bool :=
  match G.edgeData? u v with
  | some d => !d.isEmptyDict
  | none => false

/-- The per-day congestion dict `live_congestion`, as a total counter map:
`C (u, v)` is `live_congestion.get((u, v), 0)`. -/
def Cong : Type := String × String → ℕ

/-- The list of consecutive pairs of a path: `zip(path[:-1], path[1:])`. -/
def pathPairs : List String → List (String × String)
  | u :: v :: rest => (u, v) :: pathPairs (v :: rest)
  | _ => []

/-- One iteration of `update_live_congestion`:
`live_congestion[(u,v)] = live_congestion.get((u,v), 0) + 1`. -/
def bump (C : Cong) (e : String × String) : Cong :=
  fun f => if f = e then C f + 1 else C f

/-- `update_live_congestion(path)` (full_pipeline_cached.py lines 102-104):
increments the counter of every consecutive pair of the path. -/
def update_live_congestion (C : Cong) (path : List String) : Cong :=
  (pathPairs path).foldl bump C

/-- The contribution of one consecutive pair (u, v) inside the loop of
`get_path_congestion_penalty` (lines 108-115), excluding the traffic-light
term: nothing is added when the edge-data dict is empty (the `if edge_data:`
guard); otherwise base = 0.2 if capacity (default 300) ≥ 300 else 0.5, and
the pair adds base × (1 + usage × 0.05) + delay (default 0). -/
def edge_penalty_term (G : Graph) (C : Cong) (u v : String) : ℚ :=
  match G.edgeData? u v with
  | none => 0
  | some d =>
    if d.isEmptyDict then 0
    else
      (if 300 ≤ d.capacity.getD 300 then (1 : ℚ)/5 else 1/2)
        * (1 + (C (u, v) : ℚ) * (1/20)) + d.delay.getD 0

/-- The traffic-light contribution of intersection u (lines 116-117):
`G.nodes[u].get("traffic_light", False)` gates
`G.nodes[u].get("traffic_light_delay", 0)`. -/
def light_term (nd : NodeData) : ℚ :=
  if nd.traffic_light.getD false then nd.traffic_light_delay.getD 0 else 0

/-- `get_path_congestion_penalty(path)` (lines 106-118).  The loop walks the
consecutive pairs of the path; for each pair it adds the edge term and the
traffic-light term of the pair's first node.  A missing node in `G.nodes[u]`
raises KeyError, modelled by `none` (the caller catches it and skips the
trip).  The congestion counters are read, never written: the function is a
pure function of (G, C, path). -/
def get_path_congestion_penalty (G : Graph) (C : Cong) : List String → Option ℚ
  | u :: v :: rest =>
    match G.nodeData? u, get_path_congestion_penalty G C (v :: rest) with
    | some nd, some r => some (edge_penalty_term G C u v + light_term nd + r)
    | _, _ => none
  | _ => some 0

/-- Penalty formula as the specification words it: the sum over the
consecutive roads of base × (1 + usage × 0.05) + delay — with capacity
defaulting to 300 and delay to 0 — plus the traffic-light delay of every
non-final intersection that has a traffic light. -/
def spec_penalty (G : Graph) (C : Cong) (p : List String) : ℚ :=
  ((pathPairs p).map (fun e =>
      match G.edgeData? e.1 e.2 with
      | some d =>
        (if 300 ≤ d.capacity.getD 300 then (1 : ℚ)/5 else 1/2)
          * (1 + (C e : ℚ) * (1/20)) + d.delay.getD 0
      | none => 0)).sum
  + (p.dropLast.map (fun u =>
      match G.nodeData? u with
      | some nd => light_term nd
      | none => 0)).sum

/-- Python `int()` applied to a rational value: truncation toward zero. -/
def pyInt (x : ℚ) : ℤ :=
  if 0 ≤ x then ⌊x⌋ else ⌈x⌉

/-- `traffic_multiplier(hour, is_weekend)` (lines 39-52), with the float
literals 1.5, 0.6, 2.0, 2.5, 0.7, 0.3, 0.5 as exact rationals. -/
def traffic_multiplier (hour : ℕ) (is_wk : Bool) : ℚ :=
  if is_wk then
    if 14 ≤ hour ∧ hour ≤ 18 then 3/2 else 3/5
  else if 7 ≤ hour ∧ hour ≤ 9 then 2
  else if 17 ≤ hour ∧ hour ≤ 20 then 5/2
  else if 12 ≤ hour ∧ hour ≤ 14 then 7/10
  else if 0 ≤ hour ∧ hour ≤ 5 then 3/10
  else 1/2

/-- The zone-factor dict of `simulate_count` (lines 57-62), read with
`.get(zone, 1.0)`. -/
def zone_factor_table (zone : String) : ℚ :=
  if zone = "residential" then 1
  else if zone = "commercial" then 6/5
  else if zone = "industrial" then 4/5
  else if zone = "park" then 1/2
  else 1

/-- `simulate_count(hour, max_val, is_weekend, zone)` (lines 54-64), with the
draw `base = random.randint(0, max_val)` passed in explicitly; the body uses
`max_val` only through that draw.  Returns `max(int(base*multiplier*zf), 0)`. -/
def simulate_count (hour : ℕ) (max_val : ℕ) (is_wk : Bool) (zone : String)
    (base : ℕ) : ℤ :=
  let _ := max_val
  let multiplier := traffic_multiplier hour is_wk
  let zone_factor := zone_factor_table zone
  let scaled := pyInt ((base : ℚ) * multiplier * zone_factor)
  max scaled 0

/-- `is_weekend = (day % 7) in (6, 0)` (line 122). -/
def is_weekend (day : ℕ) : Bool :=
  day % 7 == 6 || day % 7 == 0

/-- Time multiplier as the specification words it, with the weekend flag
written as day mod 7 being 6 or 0 and the hour windows as closed intervals. -/
def spec_time_multiplier (hour day : ℕ) : ℚ :=
  if day % 7 = 6 ∨ day % 7 = 0 then
    (if hour ∈ Finset.Icc 14 18 then 3/2 else 3/5)
  else if hour ∈ Finset.Icc 7 9 then 2
  else if hour ∈ Finset.Icc 17 20 then 5/2
  else if hour ∈ Finset.Icc 12 14 then 7/10
  else if hour ∈ Finset.Icc 0 5 then 3/10
  else 1/2

/-- Zone factor as the specification words it: a lookup table over the four
zone names, defaulting to 1 for an unknown zone. -/
def spec_zone_factor (zone : String) : ℚ :=
  (([("residential", (1 : ℚ)), ("commercial", 6/5),
     ("industrial", 4/5), ("park", 1/2)]).lookup zone).getD 1

/-- Trip count as the specification words it: floor(u × t × f) clamped to be
nonnegative, where u is the uniform draw, t the time multiplier and f the
zone factor. -/
def spec_trip_count (hour day : ℕ) (zone : String) (u : ℕ) : ℤ :=
  max ⌊(u : ℚ) * spec_time_multiplier hour day * spec_zone_factor zone⌋ 0

/-- `format_path(path)` (lines 14-15). -/
def format_path (path : List String) : String :=
  String.intercalate "→" path

/-- The character 0, used for zero-padding. -/
def zeroChar : Char := Char.ofNat 48

/-- Python `f-string` padding `:05d` of a natural number. -/
def pad5 (n : ℕ) : String :=
  let s := toString n
  String.mk (List.replicate (5 - s.length) zeroChar) ++ s

/-- One emitted trip record (the dict appended to `vehicle_log` or
`pedestrian_log`, lines 154-164 and 177-187).  `idNum` is the integer that
is formatted into the `id` string; `src`/`dst` are the "from"/"to" fields. -/
structure TripRec where
  idNum : ℕ
  id : String
  type : String
  weight : ℕ
  src : String
  dst : String
  path : String
  hour : ℕ
  day : ℕ
  congestion_penalty : ℚ

/-- `round(x, 2)` on the modelled rational penalties, idealising Python's
binary-float rounding to exact rational rounding to centths (no claim in
this development depends on tie-breaking). -/
def round2 (q : ℚ) : ℚ :=
  ((round (q * 100) : ℤ) : ℚ) / 100

/-- The orchestration context: the graph plus the precomputed shortest-path
dict `precomputed_paths` (line 97), kept abstract as a partial map — the Path
Index of the specification.  `none` models a missing dict key (NotFound). -/
structure Ctx where
  G : Graph
  paths : String → String → Option (List String)

/-- `intersections = list(G.nodes())` (line 92). -/
def Ctx.intersections (c : Ctx) : List String :=
  c.G.nodes.map Prod.fst

/-- The `zones` dict (line 94): `G.nodes[node].get("zone", "residential")`. -/
def Ctx.zones (c : Ctx) (n : String) : String :=
  match c.G.nodeData? n with
  | some nd => nd.zone.getD "residential"
  | none => "residential"

/-- `possible_dests` (line 140): the intersections other than the origin
whose zone is commercial or industrial, in `zones.items()` order. -/
def possible_dests (c : Ctx) (start : String) : List String :=
  c.intersections.filter (fun n =>
    (n != start) && (c.zones n == "commercial" || c.zones n == "industrial"))

/-- The candidate destination set as the C6 claim words it: every
intersection whose zone is commercial or industrial. -/
def spec_vehicle_dests (c : Ctx) : List String :=
  c.intersections.filter (fun n =>
    c.zones n == "commercial" || c.zones n == "industrial")

/-- `nearby` (line 168): intersections other than the origin that are keys of
`precomputed_paths[start]` with a path list of at most 4 intersections. -/
def nearby (c : Ctx) (start : String) : List String :=
  c.intersections.filter (fun n =>
    (n != start) && (match c.paths start n with
                     | some p => decide (p.length ≤ 4)
                     | none => false))

/-- The nearby set as the C7 claim words it: intersections whose Path-Index
shortest path from the origin has at most 4 roads (path length − 1 ≤ 4). -/
def spec_ped_nearby (c : Ctx) (start : String) : List String :=
  c.intersections.filter (fun n =>
    match c.paths start n with
    | some p => decide (p.length - 1 ≤ 4)
    | none => false)

/-- `random.choice(l)` with the random draw passed as an index: picks the
element at position k mod length (uniform over the list when k is uniform). -/
def choiceOf (l : List String) (k : ℕ) : String :=
  l.getD (k % l.length) ""

/-- The pedestrian destination (line 169):
`random.choice(nearby) if nearby else random.choice(intersections)`. -/
def ped_dest (c : Ctx) (start : String) (k : ℕ) : String :=
  if (nearby c start).isEmpty then choiceOf c.intersections k
  else choiceOf (nearby c start) k

/-- The mutable simulation state threaded through the trip loops:
`id_counter` (line 99, starts at 1), `live_congestion` (line 100) and the
two per-hour log lists. -/
structure SimState where
  idCounter : ℕ
  cong : Cong
  vehicleLog : List TripRec
  pedestrianLog : List TripRec

/-- The initial state of a run: `id_counter = 1`, empty congestion dict,
empty logs. -/
def initState : SimState :=
  { idCounter := 1, cong := fun _ => 0, vehicleLog := [], pedestrianLog := [] }

/-- One vehicle-trip iteration (lines 142-165).  `k` is the destination
choice draw; the vehicle type and wheel count are passed in (they are drawn
only after the try-block succeeds).  An empty candidate list, a missing path
(KeyError on `precomputed_paths[start][dest]`) or a KeyError inside the
penalty computation leaves the state untouched (`continue`); otherwise the
penalty is computed on the pre-update counters, usage is recorded, the
record is appended and the shared id counter advances. -/
def veh_step (c : Ctx) (start : String) (k : ℕ) (vehType : String)
    (wheels : ℕ) (hour day : ℕ) (s : SimState) : SimState :=
  let dests := possible_dests c start
  if dests.isEmpty then s
  else
    let dest := choiceOf dests k
    match c.paths start dest with
    | none => s
    | some path =>
      match get_path_congestion_penalty c.G s.cong path with
      | none => s
      | some pen =>
        { idCounter := s.idCounter + 1
          cong := update_live_congestion s.cong path
          vehicleLog := s.vehicleLog ++
            [{ idNum := s.idCounter
               id := "veh_" ++ pad5 s.idCounter
               type := vehType
               weight := wheels
               src := start
               dst := dest
               path := format_path path
               hour := hour
               day := day
               congestion_penalty := round2 pen }]
          pedestrianLog := s.pedestrianLog }

/-- One pedestrian-trip iteration (lines 167-188), analogous to `veh_step`
with the nearby/fallback destination rule and the "ped_" id prefix drawn
from the same shared counter. -/
def ped_step (c : Ctx) (start : String) (k : ℕ) (hour day : ℕ)
    (s : SimState) : SimState :=
  let dest := ped_dest c start k
  match c.paths start dest with
  | none => s
  | some path =>
    match get_path_congestion_penalty c.G s.cong path with
    | none => s
    | some pen =>
      { idCounter := s.idCounter + 1
        cong := update_live_congestion s.cong path
        vehicleLog := s.vehicleLog
        pedestrianLog := s.pedestrianLog ++
          [{ idNum := s.idCounter
             id := "ped_" ++ pad5 s.idCounter
             type := "pedestrian"
             weight := 0
             src := start
             dst := dest
             path := format_path path
             hour := hour
             day := day
             congestion_penalty := round2 pen }] }

/-- One trip-processing request, carrying the explicit random draws of that
iteration. -/
inductive Req where
  | veh (start : String) (k : ℕ) (vehType : String) (wheels : ℕ)
      (hour day : ℕ)
  | ped (start : String) (k : ℕ) (hour day : ℕ)

/-- Dispatch of one request to the matching loop body. -/
def step (c : Ctx) (s : SimState) : Req → SimState
  | .veh start k t w h d => veh_step c start k t w h d s
  | .ped start k h d => ped_step c start k h d s

/-- A sequence of trip iterations, processed strictly in order (the source
is single-threaded). -/
def runSteps (c : Ctx) (reqs : List Req) (s : SimState) : SimState :=
  reqs.foldl (step c) s

/-- `live_congestion.clear()` at the top of the day loop (line 123): every
counter returns to 0; ids and logs are untouched. -/
def dayStart (s : SimState) : SimState :=
  { s with cong := fun _ => 0 }

/-- The day loop (lines 121-193): each day clears the congestion dict and
then processes that day's trip iterations in order. -/
def runDays (c : Ctx) (days : List (List Req)) (s : SimState) : SimState :=
  days.foldl (fun st reqs => runSteps c reqs (dayStart st)) s

/-- The state as it stands when day d (0-based position in the schedule) is
about to process its first trip: the previous days have run and the
day-start reset has just happened. -/
def stateAtDayStart (c : Ctx) (days : List (List Req)) (d : ℕ)
    (s0 : SimState) : SimState :=
  dayStart (runDays c (days.take d) s0)

/-- The numeric parts of the vehicle ids, in emission order. -/
def vehIdNums (s : SimState) : List ℕ :=
  s.vehicleLog.map TripRec.idNum

/-- The numeric parts of the pedestrian ids, in emission order. -/
def pedIdNums (s : SimState) : List ℕ :=
  s.pedestrianLog.map TripRec.idNum

/-- The run-configuration values main reads interactively (lines 69-72 and
86-87): grid shape, per-hour sample size, day count and the two log-file
suffixes.  main reads nothing else and never calls `random.seed`: every
random draw comes from the ambient global `random` module (lines 35, 55,
129, 135, 145, 169). -/
def main_config_fields : List String :=
  ["rows", "cols", "intersections_per_hour", "days_to_simulate",
   "vehicles_suffix", "pedestrians_suffix"]

/-- A node record with the given zone, no traffic light, zero light delay
(the shape the grid generator emits for light-free intersections). -/
def mkNode (zone : String) : NodeData :=
  { zone := some zone, traffic_light := some false, traffic_light_delay := some 0 }

/-- The everywhere-zero congestion map (a freshly cleared dict). -/
def congZero : Cong := fun _ => 0

/-- Fixture graph for the penalty claims: two intersections joined by a road
of capacity 250 and delay 0.1 (scenario road of the specification). -/
def G1 : Graph :=
  { nodes := [("A1", mkNode "residential"), ("A2", mkNode "residential")]
    edges := [(("A1", "A2"),
               { capacity := some 250, delay := some (1/10), hasOtherAttrs := true })] }

/-- A congestion state in which the fixture road has been used by 3 prior
trips of the same day. -/
def congThree : Cong :=
  fun e => if e = ("A1", "A2") then 3 else 0

/-- Fixture path-index: the single road A1 → A2 of `GEx`. -/
def pathsEx (u v : String) : Option (List String) :=
  if u == "A1" && v == "A2" then some ["A1", "A2"] else none

/-- Fixture graph with a residential origin and a commercial destination. -/
def GEx : Graph :=
  { nodes := [("A1", mkNode "residential"), ("A2", mkNode "commercial")]
    edges := [(("A1", "A2"),
               { capacity := some 400, delay := some 0, hasOtherAttrs := true })] }

/-- Fixture context for runs that emit trips. -/
def ctxEx : Ctx := { G := GEx, paths := pathsEx }

/-- Fixture for the C6 counterexample: the only commercial or industrial
intersection is the origin itself. -/
def ctxC6 : Ctx :=
  { G := { nodes := [("A1", mkNode "commercial"), ("A2", mkNode "residential")]
           edges := [] }
    paths := fun u v => if u == v then some [u] else none }

/-- Fixture for the C8 witness: a commercial destination exists but no
destination is reachable (every Path-Index lookup is NotFound). -/
def ctxC8 : Ctx :=
  { G := { nodes := [("A1", mkNode "residential"), ("A2", mkNode "commercial")]
           edges := [] }
    paths := fun _ _ => none }

/-- The directed chain S → A → B → C → X used by the C7 counterexample. -/
def chainNodes : List String := ["S", "A", "B", "C", "X"]

/-- Chain-graph path index: the unique directed path from the i-th to the
j-th chain node when i ≤ j (exactly what Dijkstra precomputes for the
chain), NotFound otherwise. -/
def paths7 (u v : String) : Option (List String) :=
  match chainNodes.indexOf? u, chainNodes.indexOf? v with
  | some i, some j =>
    if i ≤ j then some ((chainNodes.drop i).take (j - i + 1)) else none
  | _, _ => none

/-- Fixture context for the C7 counterexample: X is exactly 4 roads from S. -/
def ctx7 : Ctx :=
  { G := { nodes := chainNodes.map (fun n => (n, mkNode "residential"))
           edges := (pathPairs chainNodes).map (fun e =>
             (e, { capacity := some 400, delay := some 0, hasOtherAttrs := true })) }
    paths := paths7 }

/-- Invariant of the shared id counter: every issued id number is below the
counter, each stream's issued numbers strictly increase in emission order,
and no number has been issued twice across the two streams. -/
def IdInv (s : SimState) : Prop :=
  (∀ n ∈ vehIdNums s, n < s.idCounter)
  ∧ (∀ n ∈ pedIdNums s, n < s.idCounter)
  ∧ List.Chain' (fun a b => a < b) (vehIdNums s)
  ∧ List.Chain' (fun a b => a < b) (pedIdNums s)
  ∧ (vehIdNums s ++ pedIdNums s).Nodup

/- ------------------------------------------------------------------ -/
/- Helper lemmas                                                       -/
/- ------------------------------------------------------------------ -/

theorem foldl_bump_apply (l : List (String × String)) (C : Cong)
    (e : String × String) : (l.foldl bump C) e = C e + l.count e := by
  induction l generalizing C with
  | nil => simp [List.count]
  | cons a l ih =>
    simp only [List.foldl_cons, ih, List.count_cons, bump]
    by_cases h : e = a
    · subst h
      simp
      omega
    · have ha : (a == e) = false := by
        simp only [beq_eq_false_iff_ne, ne_eq]
        exact fun hh => h hh.symm
      simp [h, ha]

theorem update_live_congestion_apply (C : Cong) (p : List String)
    (e : String × String) :
    update_live_congestion C p e = C e + (pathPairs p).count e :=
  foldl_bump_apply (pathPairs p) C e

theorem update_live_congestion_le (C : Cong) (p : List String)
    (e : String × String) : C e ≤ update_live_congestion C p e := by
  rw [update_live_congestion_apply]
  exact Nat.le_add_right _ _

theorem foldl_update_le (recorded : List (List String)) (C : Cong)
    (e : String × String) :
    C e ≤ (recorded.foldl update_live_congestion C) e := by
  induction recorded generalizing C with
  | nil => exact le_rfl
  | cons q recorded ih =>
    exact le_trans (update_live_congestion_le C q e)
      (ih (update_live_congestion C q))

theorem edge_penalty_term_mono (G : Graph) (C C' : Cong) (u v : String)
    (h : C (u, v) ≤ C' (u, v)) :
    edge_penalty_term G C u v ≤ edge_penalty_term G C' u v := by
  unfold edge_penalty_term
  cases hd : G.edgeData? u v with
  | none => exact le_rfl
  | some d =>
    by_cases he : d.isEmptyDict
    · simp [he]
    · simp only [he, if_false, Bool.false_eq_true]
      have hb : (0 : ℚ) ≤ (if 300 ≤ d.capacity.getD 300 then (1 : ℚ)/5 else 1/2) := by
        split <;> norm_num
      have hc : ((C (u, v) : ℚ)) ≤ ((C' (u, v) : ℚ)) := by exact_mod_cast h
      have : (1 : ℚ) + (C (u, v) : ℚ) * (1/20) ≤ 1 + (C' (u, v) : ℚ) * (1/20) := by
        have := mul_le_mul_of_nonneg_right hc (by norm_num : (0:ℚ) ≤ 1/20)
        linarith
      exact add_le_add_right (mul_le_mul_of_nonneg_left this hb) _

theorem penalty_mono (G : Graph) (C C' : Cong) (h : ∀ e, C e ≤ C' e) :
    ∀ (p : List String) (x y : ℚ),
      get_path_congestion_penalty G C p = some x →
      get_path_congestion_penalty G C' p = some y → x ≤ y := by
  intro p
  induction p with
  | nil =>
    intro x y hx hy
    simp only [get_path_congestion_penalty, Option.some.injEq] at hx hy
    rw [← hx, ← hy]
  | cons u rest ih =>
    cases rest with
    | nil =>
      intro x y hx hy
      simp only [get_path_congestion_penalty, Option.some.injEq] at hx hy
      rw [← hx, ← hy]
    | cons v rest' =>
      intro x y hx hy
      simp only [get_path_congestion_penalty] at hx hy
      cases hnd : G.nodeData? u <;> rw [hnd] at hx hy
      · exact absurd hx (by simp)
      cases hrx : get_path_congestion_penalty G C (v :: rest') <;> rw [hrx] at hx
      · exact absurd hx (by simp)
      cases hry : get_path_congestion_penalty G C' (v :: rest') <;> rw [hry] at hy
      · exact absurd hy (by simp)
      simp only [Option.some.injEq] at hx hy
      rw [← hx, ← hy]
      exact add_le_add (add_le_add (edge_penalty_term_mono G C C' u v (h (u, v))) le_rfl)
        (ih _ _ hrx hry)

theorem spec_penalty_cons (G : Graph) (C : Cong) (u v : String)
    (rest : List String) :
    spec_penalty G C (u :: v :: rest) =
      (match G.edgeData? u v with
       | some d =>
         (if 300 ≤ d.capacity.getD 300 then (1 : ℚ)/5 else 1/2)
           * (1 + (C (u, v) : ℚ) * (1/20)) + d.delay.getD 0
       | none => 0)
      + (match G.nodeData? u with
         | some nd => light_term nd
         | none => 0)
      + spec_penalty G C (v :: rest) := by
  simp only [spec_penalty, pathPairs, List.dropLast_cons₂, List.map_cons,
    List.sum_cons]
  ring

theorem edge_penalty_term_of_realRoad (G : Graph) (C : Cong) (u v : String)
    (h : isRealRoad G u v = true) :
    edge_penalty_term G C u v =
      (match G.edgeData? u v with
       | some d =>
         (if 300 ≤ d.capacity.getD 300 then (1 : ℚ)/5 else 1/2)
           * (1 + (C (u, v) : ℚ) * (1/20)) + d.delay.getD 0
       | none => 0) := by
  unfold isRealRoad at h
  cases hd : G.edgeData? u v with
  | none =>
    rw [hd] at h
    simp at h
  | some d =>
    rw [hd] at h
    simp at h
    unfold edge_penalty_term
    rw [hd]
    simp [h]

/-- Claim C1: for every path and congestion state, the computed penalty is
the sum, over the consecutive roads of the path, of
base × (1 + usage × 0.05) + delay — base being 0.2 when the capacity
(default 300) is at least 300 and 0.5 otherwise, delay defaulting to 0 —
plus the traffic-light delay of every non-final intersection with a traffic
light, the usage counts being those passed in (which main reads before this
trip's own recording).  The hypotheses state the well-formedness the
specification gives every Path: each node exists and each consecutive pair
is a road with a non-empty attribute record. -/
theorem C1_penalty_formula (G : Graph) (C : Cong) (p : List String)
    (hn : ∀ u ∈ p.dropLast, (G.nodeData? u).isSome = true)
    (he : ∀ e ∈ pathPairs p, isRealRoad G e.1 e.2 = true) :
    get_path_congestion_penalty G C p = some (spec_penalty G C p) := by
  induction p with
  | nil => simp [get_path_congestion_penalty, spec_penalty, pathPairs]
  | cons u rest ih =>
    cases rest with
    | nil => simp [get_path_congestion_penalty, spec_penalty, pathPairs]
    | cons v rest' =>
      have hu : (G.nodeData? u).isSome = true := by
        apply hn
        rw [List.dropLast_cons₂]
        exact List.mem_cons_self u _
      obtain ⟨nd, hnd⟩ := Option.isSome_iff_exists.mp hu
      have hrec : get_path_congestion_penalty G C (v :: rest') =
          some (spec_penalty G C (v :: rest')) := by
        apply ih
        · intro w hw
          apply hn
          rw [List.dropLast_cons₂]
          exact List.mem_cons_of_mem u hw
        · intro e hep
          apply he
          simp only [pathPairs]
          exact List.mem_cons_of_mem (u, v) hep
      have huv : isRealRoad G u v = true := by
        apply he (u, v)
        simp [pathPairs]
      simp only [get_path_congestion_penalty, hnd, hrec]
      rw [spec_penalty_cons, edge_penalty_term_of_realRoad G C u v huv, hnd]

/-- Witness for C1 at the specification's own scenario: a capacity-250 road
with delay 0.1 traversed after 3 prior same-day trips contributes exactly
0.5 × (1 + 3 × 0.05) + 0.1. -/
theorem C1_witness :
    (∀ u ∈ (["A1", "A2"] : List String).dropLast, (G1.nodeData? u).isSome = true)
    ∧ (∀ e ∈ pathPairs ["A1", "A2"], isRealRoad G1 e.1 e.2 = true)
    ∧ get_path_congestion_penalty G1 congThree ["A1", "A2"]
        = some (spec_penalty G1 congThree ["A1", "A2"])
    ∧ spec_penalty G1 congThree ["A1", "A2"] = 1/2 * (1 + 3 * (1/20)) + 1/10 :=
  ⟨by decide, by decide,
   C1_penalty_formula G1 congThree ["A1", "A2"] (by decide) (by decide),
   by with_unfolding_all rfl⟩

/-- Claim C2: recording further paths between two penalty computations never
lowers the penalty of a fixed path — later identical requests in the same
day pay at least as much. -/
theorem C2_penalty_monotone (G : Graph) (C : Cong) (p : List String)
    (recorded : List (List String)) (x y : ℚ)
    (hx : get_path_congestion_penalty G C p = some x)
    (hy : get_path_congestion_penalty G
      (recorded.foldl update_live_congestion C) p = some y) :
    x ≤ y :=
  penalty_mono G C (recorded.foldl update_live_congestion C)
    (fun e => foldl_update_le recorded C e) p x y hx hy

theorem veh_step_cong_le (c : Ctx) (start : String) (k : ℕ) (t : String)
    (w hour day : ℕ) (s : SimState) (e : String × String) :
    s.cong e ≤ (veh_step c start k t w hour day s).cong e := by
  unfold veh_step
  dsimp only
  split
  · exact le_rfl
  · split
    · exact le_rfl
    · split
      · exact le_rfl
      · exact update_live_congestion_le _ _ _

theorem ped_step_cong_le (c : Ctx) (start : String) (k hour day : ℕ)
    (s : SimState) (e : String × String) :
    s.cong e ≤ (ped_step c start k hour day s).cong e := by
  unfold ped_step
  dsimp only
  split
  · exact le_rfl
  · split
    · exact le_rfl
    · exact update_live_congestion_le _ _ _

theorem step_cong_le (c : Ctx) (r : Req) (s : SimState) (e : String × String) :
    s.cong e ≤ (step c s r).cong e := by
  cases r with
  | veh start k t w hour day => exact veh_step_cong_le c start k t w hour day s e
  | ped start k hour day => exact ped_step_cong_le c start k hour day s e

theorem runSteps_cong_le (c : Ctx) (reqs : List Req) (s : SimState)
    (e : String × String) : s.cong e ≤ (runSteps c reqs s).cong e := by
  induction reqs generalizing s with
  | nil => exact le_rfl
  | cons r reqs ih =>
    exact le_trans (step_cong_le c r s e) (ih (step c s r))

/-- Witness for C2: the fixture road costs 0.6 on a fresh day and 0.65 after
its path is recorded twice, and the theorem yields 0.6 ≤ 0.65. -/
theorem C2_witness :
    get_path_congestion_penalty G1 congZero ["A1", "A2"] = some (3/5)
    ∧ get_path_congestion_penalty G1
        ([["A1", "A2"], ["A1", "A2"]].foldl update_live_congestion congZero)
        ["A1", "A2"] = some (13/20)
    ∧ (3 : ℚ)/5 ≤ 13/20 :=
  ⟨by with_unfolding_all rfl, by with_unfolding_all rfl,
   C2_penalty_monotone G1 congZero ["A1", "A2"] [["A1", "A2"], ["A1", "A2"]]
     (3/5) (13/20) (by with_unfolding_all rfl) (by with_unfolding_all rfl)⟩

/-- Claim C3: every usage counter is exactly 0 when a day starts (the day
loop clears the congestion dict before its first trip), and within a day the
counters never decrease across the trip-processing sequence — processing
further trips can only raise them. -/
theorem C3_day_reset_and_monotone :
    (∀ (c : Ctx) (days : List (List Req)) (d : ℕ) (s0 : SimState)
       (e : String × String), d < days.length →
       (stateAtDayStart c days d s0).cong e = 0)
    ∧ (∀ (c : Ctx) (reqs : List Req) (k : ℕ) (s : SimState)
       (e : String × String), k ≤ reqs.length →
       (runSteps c (reqs.take k) s).cong e ≤ (runSteps c reqs s).cong e) := by
  constructor
  · intro c days d s0 e _
    rfl
  · intro c reqs k s e _
    have hsplit : runSteps c reqs s =
        runSteps c (reqs.drop k) (runSteps c (reqs.take k) s) := by
      unfold runSteps
      rw [← List.foldl_append, List.take_append_drop]
    rw [hsplit]
    exact runSteps_cong_le c (reqs.drop k) _ e

/-- Witness for C3 on a one-day, one-trip schedule. -/
theorem C3_witness :
    (0 < ([[Req.veh "A1" 0 "4-wheeler" 4 0 1]] : List (List Req)).length
      ∧ (stateAtDayStart ctxEx [[Req.veh "A1" 0 "4-wheeler" 4 0 1]] 0
          initState).cong ("A1", "A2") = 0)
    ∧ (1 ≤ ([Req.veh "A1" 0 "4-wheeler" 4 0 1] : List Req).length
      ∧ (runSteps ctxEx ([Req.veh "A1" 0 "4-wheeler" 4 0 1].take 1)
            initState).cong ("A1", "A2")
          ≤ (runSteps ctxEx [Req.veh "A1" 0 "4-wheeler" 4 0 1]
              initState).cong ("A1", "A2")) :=
  ⟨⟨by decide,
    C3_day_reset_and_monotone.1 ctxEx [[Req.veh "A1" 0 "4-wheeler" 4 0 1]] 0
      initState ("A1", "A2") (by decide)⟩,
   ⟨by decide,
    C3_day_reset_and_monotone.2 ctxEx [Req.veh "A1" 0 "4-wheeler" 4 0 1] 1
      initState ("A1", "A2") (by decide)⟩⟩

theorem count_pairs_eq_one_of_nodup_mem {l : List (String × String)}
    {a : String × String} (hnd : l.Nodup) (h : a ∈ l) : l.count a = 1 := by
  induction l with
  | nil => cases h
  | cons b l ih =>
    obtain ⟨hb, hl⟩ := List.nodup_cons.mp hnd
    rw [List.count_cons]
    rcases List.mem_cons.mp h with rfl | hmem
    · rw [List.count_eq_zero_of_not_mem hb]
      simp
    · have hba : (b == a) = false := by
        simp only [beq_eq_false_iff_ne, ne_eq]
        exact fun hba => hb (hba ▸ hmem)
      rw [ih hl hmem, hba]
      simp

/-- Claim C10: recording a path bumps the counter of each of its consecutive
road pairs by exactly 1 (for the duplicate-free pair lists every Path-Index
shortest path has) and leaves every other counter unchanged.  The companion
fact that computing a penalty changes no counter and no road is structural:
`get_path_congestion_penalty` is embedded as a pure function of the graph,
the counters and the path because the source lines 106-118 only read them. -/
theorem C10_record_frame (C : Cong) (p : List String)
    (hnd : (pathPairs p).Nodup) :
    (∀ e ∈ pathPairs p, update_live_congestion C p e = C e + 1)
    ∧ (∀ e, e ∉ pathPairs p → update_live_congestion C p e = C e) := by
  constructor
  · intro e hep
    rw [update_live_congestion_apply, count_pairs_eq_one_of_nodup_mem hnd hep]
  · intro e hep
    rw [update_live_congestion_apply, List.count_eq_zero_of_not_mem hep]
    rfl

/-- Witness for C10 on a two-road path: the on-path pair gains exactly 1,
an off-path pair keeps its count. -/
theorem C10_witness :
    (pathPairs ["A1", "A2", "A3"]).Nodup
    ∧ ("A1", "A2") ∈ pathPairs ["A1", "A2", "A3"]
    ∧ ("B1", "B2") ∉ pathPairs ["A1", "A2", "A3"]
    ∧ update_live_congestion congZero ["A1", "A2", "A3"] ("A1", "A2")
        = congZero ("A1", "A2") + 1
    ∧ update_live_congestion congZero ["A1", "A2", "A3"] ("B1", "B2")
        = congZero ("B1", "B2") :=
  ⟨by decide, by decide, by decide,
   (C10_record_frame congZero ["A1", "A2", "A3"] (by decide)).1 ("A1", "A2")
     (by decide),
   (C10_record_frame congZero ["A1", "A2", "A3"] (by decide)).2 ("B1", "B2")
     (by decide)⟩

theorem traffic_multiplier_eq_spec (hour day : ℕ) :
    traffic_multiplier hour (is_weekend day) = spec_time_multiplier hour day := by
  by_cases hw : day % 7 = 6 ∨ day % 7 = 0
  · have hb : is_weekend day = true := by
      unfold is_weekend
      rcases hw with h | h <;> simp [h]
    rw [hb]
    unfold traffic_multiplier spec_time_multiplier
    simp [Finset.mem_Icc, hw]
  · have hb : is_weekend day = false := by
      unfold is_weekend
      push_neg at hw
      simp [hw.1, hw.2]
    rw [hb]
    unfold traffic_multiplier spec_time_multiplier
    simp [Finset.mem_Icc, hw]

theorem zone_factor_eq_spec (zone : String) :
    zone_factor_table zone = spec_zone_factor zone := by
  by_cases h1 : zone = "residential"
  · subst h1
    with_unfolding_all rfl
  by_cases h2 : zone = "commercial"
  · subst h2
    with_unfolding_all rfl
  by_cases h3 : zone = "industrial"
  · subst h3
    with_unfolding_all rfl
  by_cases h4 : zone = "park"
  · subst h4
    with_unfolding_all rfl
  have e1 : (zone == "residential") = false := by simp [h1]
  have e2 : (zone == "commercial") = false := by simp [h2]
  have e3 : (zone == "industrial") = false := by simp [h3]
  have e4 : (zone == "park") = false := by simp [h4]
  unfold zone_factor_table spec_zone_factor
  simp [List.lookup, h1, h2, h3, h4, e1, e2, e3, e4]

theorem traffic_multiplier_nonneg (hour : ℕ) (w : Bool) :
    0 ≤ traffic_multiplier hour w := by
  unfold traffic_multiplier
  split_ifs <;> norm_num

theorem zone_factor_nonneg (zone : String) : 0 ≤ zone_factor_table zone := by
  unfold zone_factor_table
  split_ifs <;> norm_num

theorem pyInt_of_nonneg (x : ℚ) (h : 0 ≤ x) : pyInt x = ⌊x⌋ := by
  unfold pyInt
  exact if_pos h

/-- Claim C5: for in-range hours and draws, the sampled trip count is
floor(u × t × f) clamped to be nonnegative, with the claim's time
multiplier (keyed by hour and by day mod 7 being 6 or 0) and zone-factor
table, at the source call-site maxima 10 (vehicles) and 6 (pedestrians). -/
theorem C5_trip_count_formula (hour day u1 u2 : ℕ) (zone : String)
    (hh : hour ≤ 23) (h1 : u1 ≤ 10) (h2 : u2 ≤ 6) :
    simulate_count hour 10 (is_weekend day) zone u1
      = spec_trip_count hour day zone u1
    ∧ simulate_count hour 6 (is_weekend day) zone u2
      = spec_trip_count hour day zone u2 := by
  have key : ∀ u : ℕ, ∀ m : ℕ, simulate_count hour m (is_weekend day) zone u
      = spec_trip_count hour day zone u := by
    intro u m
    unfold simulate_count spec_trip_count
    have hnn : 0 ≤ (u : ℚ) * traffic_multiplier hour (is_weekend day)
        * zone_factor_table zone :=
      mul_nonneg (mul_nonneg (Nat.cast_nonneg u)
        (traffic_multiplier_nonneg hour (is_weekend day)))
        (zone_factor_nonneg zone)
    simp only
    rw [pyInt_of_nonneg _ hnn, traffic_multiplier_eq_spec, zone_factor_eq_spec]
  exact ⟨key u1 10, key u2 6⟩

/-- Witness for C5 at a weekday rush hour with a commercial origin:
draw 5 gives 5 × 2.0 × 1.2 = 12 vehicles, draw 3 gives ⌊7.2⌋ = 7
pedestrians. -/
theorem C5_witness :
    ((8 : ℕ) ≤ 23 ∧ (5 : ℕ) ≤ 10 ∧ (3 : ℕ) ≤ 6)
    ∧ (simulate_count 8 10 (is_weekend 1) "commercial" 5
        = spec_trip_count 8 1 "commercial" 5
      ∧ simulate_count 8 6 (is_weekend 1) "commercial" 3
        = spec_trip_count 8 1 "commercial" 3)
    ∧ spec_trip_count 8 1 "commercial" 5 = 12
    ∧ spec_trip_count 8 1 "commercial" 3 = 7 :=
  ⟨⟨by decide, by decide, by decide⟩,
   C5_trip_count_formula 8 1 5 3 "commercial" (by decide) (by decide) (by decide),
   by with_unfolding_all rfl, by with_unfolding_all rfl⟩

theorem choiceOf_mem (l : List String) (k : ℕ) (h : l.isEmpty = false) :
    choiceOf l k ∈ l := by
  have hlen : 0 < l.length := by
    cases l with
    | nil => simp at h
    | cons a l => simp
  have hk : k % l.length < l.length := Nat.mod_lt k hlen
  unfold choiceOf
  rw [List.getD_eq_getElem?_getD, List.getElem?_eq_getElem hk]
  exact List.getElem_mem hk

/-- Counterexample to C6 as stated: in a city whose only commercial or
industrial intersection is the origin itself, the claim's candidate set
(all commercial/industrial intersections) is non-empty, so the claim emits
a trip — but the source's candidate list excludes the origin, is empty, and
the vehicle trip is skipped with the whole state untouched. -/
theorem C6_counterexample :
    spec_vehicle_dests ctxC6 = ["A1"]
    ∧ possible_dests ctxC6 "A1" = []
    ∧ veh_step ctxC6 "A1" 0 "4-wheeler" 4 0 1 initState = initState :=
  ⟨by decide, by decide, rfl⟩

/-- Claim C6 amended: the vehicle destination is drawn uniformly from the
commercial/industrial intersections other than the origin; when that set is
empty the trip is skipped — no record, no id, no counter change. -/
theorem C6_vehicle_dest_amended (c : Ctx) (start : String) :
    (∀ n, n ∈ possible_dests c start ↔
      n ∈ c.intersections ∧ n ≠ start
        ∧ (c.zones n = "commercial" ∨ c.zones n = "industrial"))
    ∧ (∀ (k : ℕ) (t : String) (w hour day : ℕ) (s : SimState),
        (possible_dests c start).isEmpty = true →
        veh_step c start k t w hour day s = s)
    ∧ (∀ k : ℕ, (possible_dests c start).isEmpty = false →
        choiceOf (possible_dests c start) k ∈ possible_dests c start) := by
  refine ⟨?_, ?_, ?_⟩
  · intro n
    simp [possible_dests, List.mem_filter, and_assoc]
  · intro k t w hour day s hempty
    unfold veh_step
    dsimp only
    simp [hempty]
  · intro k hne
    exact choiceOf_mem _ k hne

/-- Witness for the amended C6: the skip case on the counterexample city and
the sampling case on the fixture city with a commercial destination. -/
theorem C6_amended_witness :
    ((possible_dests ctxC6 "A1").isEmpty = true
      ∧ veh_step ctxC6 "A1" 1 "2-wheeler" 2 5 2 initState = initState)
    ∧ ((possible_dests ctxEx "A1").isEmpty = false
      ∧ choiceOf (possible_dests ctxEx "A1") 0 ∈ possible_dests ctxEx "A1") :=
  ⟨⟨by decide,
    (C6_vehicle_dest_amended ctxC6 "A1").2.1 1 "2-wheeler" 2 5 2 initState
      (by decide)⟩,
   ⟨by decide, (C6_vehicle_dest_amended ctxEx "A1").2.2 0 (by decide)⟩⟩

theorem nearby_cond_iff (c : Ctx) (start n : String) :
    (match c.paths start n with
     | some p => decide (p.length ≤ 4)
     | none => false) = true
    ↔ ∃ p, c.paths start n = some p ∧ p.length ≤ 4 := by
  cases hp : c.paths start n <;> simp [hp]

/-- Counterexample to C7 as stated: in the directed chain S→A→B→C→X the
intersection X is reachable from S by a shortest path of exactly 4 roads
(a 5-entry path list), so the claim's nearby set is S, A, B, C, X — but the
source keeps intersections other than the origin whose path LIST has at
most 4 entries (at most 3 roads) and yields only A, B, C: X is excluded
against the claim, and the origin-exclusion also differs. -/
theorem C7_counterexample :
    nearby ctx7 "S" = ["A", "B", "C"]
    ∧ spec_ped_nearby ctx7 "S" = ["S", "A", "B", "C", "X"]
    ∧ paths7 "S" "X" = some ["S", "A", "B", "C", "X"] :=
  ⟨by decide, by decide, by decide⟩

/-- Claim C7 amended: the pedestrian destination is drawn uniformly from
the intersections other than the origin whose Path-Index path holds at most
4 intersections (at most 3 roads); when that set is empty the destination
is drawn uniformly from all intersections. -/
theorem C7_ped_dest_amended (c : Ctx) (start : String) :
    (∀ n, n ∈ nearby c start ↔
      n ∈ c.intersections ∧ n ≠ start
        ∧ ∃ p, c.paths start n = some p ∧ p.length ≤ 4)
    ∧ (∀ k : ℕ, (nearby c start).isEmpty = true →
        ped_dest c start k = choiceOf c.intersections k)
    ∧ (∀ k : ℕ, (nearby c start).isEmpty = false →
        ped_dest c start k ∈ nearby c start) := by
  refine ⟨?_, ?_, ?_⟩
  · intro n
    rw [nearby, List.mem_filter]
    simp only [Bool.and_eq_true, bne_iff_ne, ne_eq, nearby_cond_iff, and_assoc]
  · intro k hempty
    unfold ped_dest
    simp [hempty]
  · intro k hne
    unfold ped_dest
    simp only [hne, Bool.false_eq_true, if_false]
    exact choiceOf_mem _ k hne

/-- Witness for the amended C7: sampling from the non-empty nearby set of
the chain city and falling back to all intersections when nothing is
reachable. -/
theorem C7_amended_witness :
    ((nearby ctx7 "S").isEmpty = false ∧ ped_dest ctx7 "S" 1 ∈ nearby ctx7 "S")
    ∧ ((nearby ctxC8 "A1").isEmpty = true
      ∧ ped_dest ctxC8 "A1" 0 = choiceOf ctxC8.intersections 0) :=
  ⟨⟨by decide, (C7_ped_dest_amended ctx7 "S").2.2 1 (by decide)⟩,
   ⟨by decide, (C7_ped_dest_amended ctxC8 "A1").2.1 0 (by decide)⟩⟩

/-- Claim C8: when the Path-Index lookup for the chosen destination returns
NotFound, the trip is dropped atomically — the returned state is exactly
the input state, so no record is emitted, the id counter does not advance,
no penalty is charged and every congestion counter is unchanged. -/
theorem C8_notfound_drop (c : Ctx) (start t : String) (k w hour day : ℕ)
    (s : SimState) :
    ((possible_dests c start).isEmpty = false →
      c.paths start (choiceOf (possible_dests c start) k) = none →
      veh_step c start k t w hour day s = s)
    ∧ (c.paths start (ped_dest c start k) = none →
      ped_step c start k hour day s = s) := by
  constructor
  · intro hne hnf
    unfold veh_step
    dsimp only
    simp [hne, hnf]
  · intro hnf
    unfold ped_step
    dsimp only
    simp [hnf]

/-- Witness for C8 on a city whose Path Index finds nothing: both the
vehicle and the pedestrian iteration return the state unchanged. -/
theorem C8_witness :
    ((possible_dests ctxC8 "A1").isEmpty = false
      ∧ ctxC8.paths "A1" (choiceOf (possible_dests ctxC8 "A1") 0) = none
      ∧ veh_step ctxC8 "A1" 0 "4-wheeler" 4 7 3 initState = initState)
    ∧ (ctxC8.paths "A1" (ped_dest ctxC8 "A1" 0) = none
      ∧ ped_step ctxC8 "A1" 0 7 3 initState = initState) :=
  ⟨⟨by decide, by decide,
    (C8_notfound_drop ctxC8 "A1" "4-wheeler" 0 4 7 3 initState).1
      (by decide) (by decide)⟩,
   ⟨by decide,
    (C8_notfound_drop ctxC8 "A1" "4-wheeler" 0 4 7 3 initState).2 (by decide)⟩⟩

theorem chain_append_fresh (l : List ℕ) (m : ℕ) (hb : ∀ n ∈ l, n < m)
    (hc : List.Chain' (fun a b => a < b) l) :
    List.Chain' (fun a b => a < b) (l ++ [m]) := by
  rw [List.chain'_append]
  refine ⟨hc, List.chain'_singleton m, ?_⟩
  intro x hx y hy
  simp only [List.head?_cons, Option.mem_def, Option.some.injEq] at hy
  subst hy
  exact hb x (List.mem_of_mem_getLast? hx)

theorem not_mem_append_of_lt (A B : List ℕ) (m : ℕ)
    (hA : ∀ n ∈ A, n < m) (hB : ∀ n ∈ B, n < m) : m ∉ A ++ B := by
  intro hmem
  rcases List.mem_append.mp hmem with hx | hx
  · exact absurd (hA m hx) (lt_irrefl m)
  · exact absurd (hB m hx) (lt_irrefl m)

theorem nodup_append_fresh_left (A B : List ℕ) (m : ℕ)
    (hA : ∀ n ∈ A, n < m) (hB : ∀ n ∈ B, n < m) (h : (A ++ B).Nodup) :
    ((A ++ [m]) ++ B).Nodup := by
  rw [List.append_assoc, List.singleton_append, List.nodup_middle]
  exact List.nodup_cons.mpr ⟨not_mem_append_of_lt A B m hA hB, h⟩

theorem nodup_append_fresh_right (A B : List ℕ) (m : ℕ)
    (hA : ∀ n ∈ A, n < m) (hB : ∀ n ∈ B, n < m) (h : (A ++ B).Nodup) :
    (A ++ (B ++ [m])).Nodup := by
  rw [← List.append_assoc]
  exact List.Nodup.append h (List.nodup_singleton m)
    (List.disjoint_singleton.mpr (not_mem_append_of_lt A B m hA hB))

theorem step_IdInv (c : Ctx) (r : Req) (s : SimState) (h : IdInv s) :
    IdInv (step c s r) := by
  obtain ⟨hbv, hbp, hcv, hcp, hnd⟩ := h
  cases r with
  | veh start k t w hour day =>
    unfold step veh_step
    dsimp only
    split
    · exact ⟨hbv, hbp, hcv, hcp, hnd⟩
    split
    · exact ⟨hbv, hbp, hcv, hcp, hnd⟩
    split
    · exact ⟨hbv, hbp, hcv, hcp, hnd⟩
    refine ⟨?_, ?_, ?_, ?_, ?_⟩ <;>
      simp only [IdInv, vehIdNums, pedIdNums, List.map_append, List.map_cons,
        List.map_nil]
    · intro n hn
      rcases List.mem_append.mp hn with hx | hx
      · exact Nat.lt_succ_of_lt (hbv n hx)
      · simp only [List.mem_singleton] at hx
        subst hx
        exact Nat.lt_succ_self _
    · intro n hn
      exact Nat.lt_succ_of_lt (hbp n hn)
    · exact chain_append_fresh _ _ hbv hcv
    · exact hcp
    · exact nodup_append_fresh_left _ _ _ hbv hbp hnd
  | ped start k hour day =>
    unfold step ped_step
    dsimp only
    split
    · exact ⟨hbv, hbp, hcv, hcp, hnd⟩
    split
    · exact ⟨hbv, hbp, hcv, hcp, hnd⟩
    refine ⟨?_, ?_, ?_, ?_, ?_⟩ <;>
      simp only [IdInv, vehIdNums, pedIdNums, List.map_append, List.map_cons,
        List.map_nil]
    · intro n hn
      exact Nat.lt_succ_of_lt (hbv n hn)
    · intro n hn
      rcases List.mem_append.mp hn with hx | hx
      · exact Nat.lt_succ_of_lt (hbp n hx)
      · simp only [List.mem_singleton] at hx
        subst hx
        exact Nat.lt_succ_self _
    · exact hcv
    · exact chain_append_fresh _ _ hbp hcp
    · exact nodup_append_fresh_right _ _ _ hbv hbp hnd

theorem runSteps_IdInv (c : Ctx) (reqs : List Req) (s : SimState)
    (h : IdInv s) : IdInv (runSteps c reqs s) := by
  induction reqs generalizing s with
  | nil => exact h
  | cons r reqs ih => exact ih (step c s r) (step_IdInv c r s h)

/-- Counterexample to C9 as stated: from a fresh run, processing a
pedestrian trip and then a vehicle trip gives the vehicle id number 2,
while the same vehicle trip alone gives number 1 — the vehicle id stream
advanced on a pedestrian emission, so the two id sequences are not
independent (both draw on the one shared counter `id_counter`). -/
theorem C9_counterexample :
    vehIdNums (runSteps ctxEx
      [Req.ped "A1" 0 0 1, Req.veh "A1" 0 "4-wheeler" 4 0 1] initState) = [2]
    ∧ pedIdNums (runSteps ctxEx
      [Req.ped "A1" 0 0 1, Req.veh "A1" 0 "4-wheeler" 4 0 1] initState) = [1]
    ∧ vehIdNums (runSteps ctxEx
      [Req.veh "A1" 0 "4-wheeler" 4 0 1] initState) = [1] :=
  ⟨by decide, by decide, by decide⟩

/-- Claim C9 amended: the numeric id parts come from one shared strictly
increasing counter, so within each stream the numeric parts strictly
increase in emission order and no number is issued twice across the two
streams — but the streams are not independent of each other: an emitted
trip of either kind advances the shared counter. -/
theorem C9_shared_counter_ids (c : Ctx) (reqs : List Req) :
    List.Chain' (fun a b => a < b) (vehIdNums (runSteps c reqs initState))
    ∧ List.Chain' (fun a b => a < b) (pedIdNums (runSteps c reqs initState))
    ∧ (vehIdNums (runSteps c reqs initState)
        ++ pedIdNums (runSteps c reqs initState)).Nodup := by
  have hinit : IdInv initState := by
    refine ⟨?_, ?_, ?_, ?_, ?_⟩ <;> simp [initState, vehIdNums, pedIdNums]
  obtain ⟨_, _, hcv, hcp, hnd⟩ := runSteps_IdInv c reqs initState hinit
  exact ⟨hcv, hcp, hnd⟩

/-- Claim C4 supporting theorem: the run configuration main reads holds no
random-seed option at all — combined with the source's exclusive use of the
ambient global `random` module (never seeded), no fixed seed can be
supplied to reproduce a run. -/
theorem C4_no_random_seed : "random_seed" ∉ main_config_fields := by
  decide
